import Mathlib

/-!
Verification of the Equipment Controller of the Automated Mechatronic
Test Inspection System, shallowly embedded from
`src/cpp/equipment_controller.cpp` (namespace `MechatronicTest`).

Modelling conventions:
* C++ `double` is modelled as `ℚ` (the claims under scrutiny involve only
  exact decimal literals, never rounding).
* The hardware transport (`HardwareInterface`) is modelled by its
  observable behaviour: the state records whether an interface object
  exists and whether it is connected (`Option Bool`), and each operation
  that performs I/O receives the transport's answers (send success,
  received response bytes, current wall-clock timestamp) as explicit
  environment arguments.
* Side effects are made explicit: every controller operation returns its
  C++ return value, the successor state, and the ordered list of `Event`s
  it performed (status-callback invocations, transport sends/receives,
  sleeps).  A `notify` event is the invocation of the registered status
  callback (`Impl::setStatus` invokes it exactly when a callback is
  registered; the traces below describe a controller with a registered
  callback).
-/

namespace MechatronicTest

/-- `EquipmentStatus` enumeration from `equipment_controller.h`. -/
inductive EquipmentStatus
  | IDLE
  | RUNNING
  | PAUSED
  | ERROR
  | MAINTENANCE
deriving DecidableEq

/-- `TestResult` struct from `equipment_controller.h`; `double` modelled
as `ℚ`.  The C++ default-constructed struct leaves `passed` and
`measurement_value` indeterminate; the model uses `false` and `0`
(every return path of `runTest` assigns `passed` before returning). -/
structure TestResult where
  test_id : String
  device_id : String
  passed : Bool
  measurement_value : ℚ
  units : String
  timestamp : String
  notes : String
deriving DecidableEq

/-- `EquipmentConfig` struct from `equipment_controller.h`. -/
structure EquipmentConfig where
  device_port : String
  baud_rate : Int
  measurement_tolerance : ℚ
  max_retry_attempts : Int
  enable_logging : Bool
  log_file_path : String
deriving DecidableEq

/-- Observable side effects of a controller operation, in the order they
occur during the call: `notify` is an invocation of the registered
status callback (from `Impl::setStatus`), `send`/`receive` are transport
interactions, `sleep` is a blocking delay. -/
inductive Event
  | notify (st : EquipmentStatus) (msg : String)
  | send (cmd : String)
  | receive (timeout_ms : Nat)
  | sleep (ms : Nat)
deriving DecidableEq

/-- The mutable per-instance fields of `EquipmentController::Impl` that
the public operations read or write: `status`, `lastError`, and the
hardware interface (`none` = no interface object created yet,
`some c` = interface exists with `isConnected() = c`). -/
structure ControllerState where
  status : EquipmentStatus
  lastError : String
  hardware : Option Bool
deriving DecidableEq

/-- State after `EquipmentController()`: `Impl` constructor sets
`status(EquipmentStatus::IDLE)`, `lastError` empty, no hardware yet. -/
def initialState : ControllerState :=
  { status := .IDLE, lastError := "", hardware := none }

/-- `Impl::setStatus`: assigns the new status and invokes the status
callback with `(status, message)` (modelled as a `notify` event). -/
def setStatus (s : ControllerState) (newStatus : EquipmentStatus)
    (message : String) : ControllerState × List Event :=
  ({ s with status := newStatus }, [Event.notify newStatus message])

/-- `EquipmentController::getStatus`. -/
def getStatus (s : ControllerState) : EquipmentStatus := s.status

/-- `EquipmentController::getLastError`. -/
def getLastError (s : ControllerState) : String := s.lastError

/-- `createHardwareInterface`: returns an interface object for
`"serial"`, null (`none`) for every other type. -/
def createHardwareInterface (interface_type : String) : Option Unit :=
  if interface_type = "serial" then some () else none

/-- `EquipmentController::initialize`.  `connectOk` is the environment's
answer to `hardware->connect(config.device_port, config.baud_rate)`;
on connect failure `connected` stays `false` inside the interface. -/
def initializeEquipment (s : ControllerState) (config : EquipmentConfig)
    (connectOk : Bool) : Bool × ControllerState × List Event :=
  match createHardwareInterface "serial" with
  | none =>
      let s1 := { s with hardware := none,
                         lastError := "Failed to create hardware interface" }
      let (s2, ev) := setStatus s1 .ERROR "Failed to create hardware interface"
      (false, s2, ev)
  | some _ =>
      if connectOk then
        let s1 := { s with hardware := some true }
        let (s2, ev) := setStatus s1 .IDLE "Equipment initialized successfully"
        (true, s2, ev)
      else
        let s1 := { s with hardware := some false,
                           lastError := "Failed to connect to device on port "
                             ++ config.device_port }
        let (s2, ev) := setStatus s1 .IDLE "Equipment initialized (simulation mode)"
        (false, s2, ev)

/-- `EquipmentController::start`. -/
def start (s : ControllerState) : Bool × ControllerState × List Event :=
  if s.status ≠ .IDLE ∧ s.status ≠ .PAUSED then
    (false, { s with lastError := "Equipment must be in IDLE or PAUSED state to start" }, [])
  else
    let (s1, ev) := setStatus s .RUNNING "Equipment started"
    (true, s1, ev)

/-- `EquipmentController::stop`. -/
def stop (s : ControllerState) : Bool × ControllerState × List Event :=
  if s.status = .IDLE then
    (true, s, [])
  else
    let (s1, ev) := setStatus s .IDLE "Equipment stopped"
    (true, s1, ev)

/-- `EquipmentController::pause`. -/
def pause (s : ControllerState) : Bool × ControllerState × List Event :=
  if s.status ≠ .RUNNING then
    (false, { s with lastError := "Equipment must be running to pause" }, [])
  else
    let (s1, ev) := setStatus s .PAUSED "Equipment paused"
    (true, s1, ev)

/-- `EquipmentController::resume`. -/
def resume (s : ControllerState) : Bool × ControllerState × List Event :=
  if s.status ≠ .PAUSED then
    (false, { s with lastError := "Equipment must be paused to resume" }, [])
  else
    let (s1, ev) := setStatus s .RUNNING "Equipment resumed"
    (true, s1, ev)

/-- Splitting loop of `runTest`: `while (std::getline(iss, token, sep))`.
Accumulates the current token (reversed) while walking the characters;
a separator closes the current token. -/
def splitChar : List Char → Char → List Char → List (List Char)
  | [], _, acc => [acc.reverse]
  | c :: cs, sep, acc =>
      if c = sep then acc.reverse :: splitChar cs sep []
      else splitChar cs sep (c :: acc)

/-- `std::getline`-based tokenisation of a string on a separator, as in
`runTest`: the empty string yields no tokens, and a trailing separator
does not open a final empty token (`getline` fails at end of stream). -/
def cppSplit (s : String) (sep : Char) : List String :=
  if s = "" then []
  else
    let parts := (splitChar s.toList sep []).map String.mk
    if s.toList.getLast? = some sep then parts.dropLast else parts

/-- Digit-run parser used to model `std::stod`: consumes leading decimal
digits, returning their value, how many there were, and the rest. -/
def parseNatDigits : List Char → Nat → Nat → Nat × Nat × List Char
  | [], acc, n => (acc, n, [])
  | c :: cs, acc, n =>
      if c.isDigit then parseNatDigits cs (10 * acc + (c.toNat - 48)) (n + 1)
      else (acc, n, c :: cs)

/-- Model of `std::stod` restricted to decimal literals: optional
leading whitespace, optional sign, digits with an optional fractional
part (at least one digit overall), and an optional exponent.  `none`
models the `std::invalid_argument` throw when no conversion is
performed.  The model is exact over `ℚ` (no rounding and no
`std::out_of_range`: the claims involve only small in-range literals). -/
def stod (s : String) : Option ℚ :=
  let cs0 := s.toList.dropWhile Char.isWhitespace
  let neg : Bool := cs0.head? = some '-'
  let cs1 := if cs0.head? = some '-' ∨ cs0.head? = some '+' then cs0.tail else cs0
  let (ip, ipn, cs2) := parseNatDigits cs1 0 0
  let (fp, fpn, cs3) :=
    if cs2.head? = some '.' then parseNatDigits cs2.tail 0 0 else (0, 0, cs2)
  if ipn = 0 ∧ fpn = 0 then none
  else
    let mant0 : ℚ := (ip : ℚ) + (fp : ℚ) / (10 : ℚ) ^ fpn
    let mant : ℚ := if neg then -mant0 else mant0
    if cs3.head? = some 'e' ∨ cs3.head? = some 'E' then
      let rest := cs3.tail
      let eneg : Bool := rest.head? = some '-'
      let rest1 := if rest.head? = some '-' ∨ rest.head? = some '+' then rest.tail else rest
      let (ev, evn, _) := parseNatDigits rest1 0 0
      if evn = 0 then some mant
      else if eneg then some (mant / (10 : ℚ) ^ ev)
      else some (mant * (10 : ℚ) ^ ev)
    else some mant

/-- Substring test on character lists (helper for
`std::string::find(pat) != npos`). -/
def containsSub : List Char → List Char → Bool
  | [], pat => pat.isEmpty
  | c :: t, pat => pat.isPrefixOf (c :: t) || containsSub t pat

/-- `haystack.find(pat) != std::string::npos`. -/
def strContains (haystack pat : String) : Bool :=
  containsSub haystack.toList pat.toList

/-- Environment inputs consumed by one `runTest` call: the wall-clock
timestamp returned by `Impl::getCurrentTimestamp` (second resolution,
format `%Y-%m-%d %H:%M:%S`), whether `hardware->sendCommand` succeeds,
and the bytes delivered by `hardware->receiveResponse` (the empty
string is a timeout). -/
structure RunTestEnv where
  timestamp : String
  sendOk : Bool
  response : String
deriving DecidableEq

/-- `EquipmentController::runTest`.  Returns the `TestResult`, the
successor state, and the event trace.  The `catch` block around the
exchange is modelled by the `stod` result: `none` is the thrown
`std::invalid_argument`, caught and converted into a failed result
(libstdc++ reports `what() = "stod"`). -/
def runTest (s : ControllerState) (device_id : String)
    (test_parameters : List String) (env : RunTestEnv) :
    TestResult × ControllerState × List Event :=
  let result0 : TestResult :=
    { test_id := "TEST_" ++ env.timestamp
      device_id := device_id
      passed := false
      measurement_value := 0
      units := ""
      timestamp := env.timestamp
      notes := "" }
  if s.status ≠ .RUNNING then
    ({ result0 with passed := false, notes := "Equipment not in running state" }, s, [])
  else if s.hardware ≠ some true then
    ({ result0 with passed := false, notes := "Hardware not connected" }, s, [])
  else
    let command := test_parameters.foldl (fun cmd param => cmd ++ ":" ++ param)
      ("TEST:" ++ device_id)
    if env.sendOk = false then
      ({ result0 with passed := false, notes := "Failed to send test command" }, s,
       [Event.send command])
    else
      let exchanged : List Event := [Event.send command, Event.receive 5000]
      if env.response = "" then
        ({ result0 with passed := false, notes := "No response from device" }, s, exchanged)
      else
        let tokens := cppSplit env.response ':'
        if 4 ≤ tokens.length ∧ tokens.getD 0 "" = "RESULT" then
          match stod (tokens.getD 1 "") with
          | some v =>
              ({ result0 with measurement_value := v
                              units := tokens.getD 2 ""
                              passed := tokens.getD 3 "" = "PASS"
                              notes := "Test completed successfully" }, s, exchanged)
          | none =>
              ({ result0 with passed := false
                              notes := "Test execution error: stod" }, s, exchanged)
        else
          ({ result0 with passed := false
                          notes := "Invalid response format: " ++ env.response }, s,
           exchanged)

/-- `EquipmentController::calibrate`.  `response` is what
`hardware->receiveResponse(10000)` delivers; the `sendCommand` result is
ignored by the C++ code.  The 2-second settling sleep is the
`sleep 2000` event. -/
def calibrate (s : ControllerState) (response : String) :
    Bool × ControllerState × List Event :=
  if s.status ≠ .IDLE then
    (false, { s with lastError := "Equipment must be idle for calibration" }, [])
  else
    let (s1, ev1) := setStatus s .MAINTENANCE "Calibration in progress"
    if s.hardware = some true then
      let io := [Event.sleep 2000, Event.send "CALIBRATE", Event.receive 10000]
      if strContains response "CAL_OK" then
        let (s2, ev3) := setStatus s1 .IDLE "Calibration completed successfully"
        (true, s2, ev1 ++ io ++ ev3)
      else
        let (s2, ev3) := setStatus s1 .ERROR "Calibration failed"
        (false, s2, ev1 ++ io ++ ev3)
    else
      let (s2, ev3) := setStatus s1 .ERROR "Calibration failed"
      (false, s2, ev1 ++ [Event.sleep 2000] ++ ev3)

/-- `EquipmentController::getHealthMetrics`: a `const` member that
builds and returns a fixed vector of simulated metric pairs; it reads
no controller state and performs no transport interaction. -/
def getHealthMetrics (s : ControllerState) : List (String × ℚ) :=
  [("Temperature", 23.5),
   ("Vibration", 0.02),
   ("Power_Consumption", 125.3),
   ("Uptime_Hours", 1234.5),
   ("Error_Rate", 0.001)]

/-- One public controller call together with its environment inputs,
for reasoning about call sequences. -/
inductive Op
  | startOp
  | stopOp
  | pauseOp
  | resumeOp
  | initOp (config : EquipmentConfig) (connectOk : Bool)
  | runTestOp (device_id : String) (params : List String) (env : RunTestEnv)
  | calibrateOp (response : String)

/-- Dispatch one call: the `Bool` is the C++ return value (for
`runTest`, its `TestResult.passed` field). -/
def applyOp (s : ControllerState) : Op → Bool × ControllerState × List Event
  | .startOp => start s
  | .stopOp => stop s
  | .pauseOp => pause s
  | .resumeOp => resume s
  | .initOp config connectOk => initializeEquipment s config connectOk
  | .runTestOp d ps env =>
      let (r, s1, ev) := runTest s d ps env
      (r.passed, s1, ev)
  | .calibrateOp response => calibrate s response

/-- Run a sequence of calls, threading the state. -/
def runOps (s : ControllerState) : List Op → ControllerState
  | [] => s
  | op :: rest => runOps (applyOp s op).2.1 rest

/-- Every call in the sequence returns success. -/
def allSucceed (s : ControllerState) : List Op → Bool
  | [] => true
  | op :: rest => (applyOp s op).1 && allSucceed (applyOp s op).2.1 rest

/-- The status-callback invocations contained in an event trace, in
order. -/
def notificationsOf (events : List Event) : List (EquipmentStatus × String) :=
  events.filterMap fun e =>
    match e with
    | Event.notify st msg => some (st, msg)
    | _ => none

/-- The four plain lifecycle transitions. -/
inductive TransOp
  | startT
  | stopT
  | pauseT
  | resumeT

/-- The legal-transition table of spec section 4.3 restricted to the
four plain transitions: `some target` when the operation is legal in
`st` (with the status it moves to), `none` when it must fail.  This is
the spec-side definition, written from the spec table, to be compared
with the code. -/
def specTransitionTable (st : EquipmentStatus) : TransOp → Option EquipmentStatus
  | .startT => if st = .IDLE ∨ st = .PAUSED then some .RUNNING else none
  | .stopT => some .IDLE
  | .pauseT => if st = .RUNNING then some .PAUSED else none
  | .resumeT => if st = .PAUSED then some .RUNNING else none

/-- Dispatch one of the four plain transitions to the code. -/
def applyTrans (s : ControllerState) : TransOp → Bool × ControllerState × List Event
  | .startT => start s
  | .stopT => stop s
  | .pauseT => pause s
  | .resumeT => resume s

/-- The human-readable reason each transition records on a precondition
failure (empty for `stop`, which cannot fail). -/
def transFailReason : TransOp → String
  | .startT => "Equipment must be in IDLE or PAUSED state to start"
  | .stopT => ""
  | .pauseT => "Equipment must be running to pause"
  | .resumeT => "Equipment must be paused to resume"

/-- The full success condition of `runTest`'s response parse: at least 4
colon tokens, leading token `RESULT`, and a value token `std::stod`
accepts. -/
def wellFormedResult (r : String) : Bool :=
  let tokens := cppSplit r ':'
  decide (4 ≤ tokens.length) && decide (tokens.getD 0 "" = "RESULT") &&
    (stod (tokens.getD 1 "")).isSome

/-- Controller state used by the concrete scenarios: running with a
connected serial interface. -/
def runningState : ControllerState :=
  { status := .RUNNING, lastError := "", hardware := some true }

/-- Environment delivering the malformed response of spec section 8. -/
def malformedEnv : RunTestEnv :=
  { timestamp := "2024-06-01 10:00:00", sendOk := true, response := "RESULT:abc:V" }

/-- Environment delivering the well-formed response of spec section 8. -/
def roundtripEnv : RunTestEnv :=
  { timestamp := "2024-06-01 10:00:00", sendOk := true, response := "RESULT:4.98:V:PASS" }

lemma data_append (a b : String) : (a ++ b).data = a.data ++ b.data := rfl

lemma append_ne_empty (a b : String) (h : a ≠ "") : a ++ b ≠ "" := by
  intro hc
  apply h
  have hd : a.data ++ b.data = [] := by
    have := congrArg String.data hc
    rwa [data_append] at this
  have ha : a.data = [] := (List.append_eq_nil.mp hd).1
  cases a
  simp_all

lemma append_left_inj (a b c : String) (h : a ++ b = a ++ c) : b = c := by
  have hd : a.data ++ b.data = a.data ++ c.data := by
    have := congrArg String.data h
    rwa [data_append, data_append] at this
  have := List.append_cancel_left hd
  cases b; cases c; simp_all

lemma runTest_test_id (s : ControllerState) (d : String) (ps : List String)
    (env : RunTestEnv) :
    (runTest s d ps env).1.test_id = "TEST_" ++ env.timestamp := by
  simp only [runTest]
  repeat' split <;> try rfl

lemma runTest_device_id (s : ControllerState) (d : String) (ps : List String)
    (env : RunTestEnv) :
    (runTest s d ps env).1.device_id = d := by
  simp only [runTest]
  repeat' split <;> try rfl

lemma applyOp_success_preserves_lastError (s : ControllerState) (op : Op)
    (h : (applyOp s op).1 = true) :
    ((applyOp s op).2.1).lastError = s.lastError := by
  rcases s with ⟨st, le, hw⟩
  cases op with
  | startOp =>
      by_cases hst : st ≠ .IDLE ∧ st ≠ .PAUSED
      · simp [applyOp, start, hst] at h
      · simp [applyOp, start, hst, setStatus]
  | stopOp =>
      by_cases hst : st = .IDLE <;> simp [applyOp, stop, hst, setStatus]
  | pauseOp =>
      by_cases hst : st ≠ .RUNNING
      · simp [applyOp, pause, hst] at h
      · simp [applyOp, pause, hst, setStatus]
  | resumeOp =>
      by_cases hst : st ≠ .PAUSED
      · simp [applyOp, resume, hst] at h
      · simp [applyOp, resume, hst, setStatus]
  | initOp config connectOk =>
      cases connectOk
      · simp [applyOp, initializeEquipment, createHardwareInterface, setStatus] at h
      · simp [applyOp, initializeEquipment, createHardwareInterface, setStatus]
  | runTestOp d ps env =>
      have hs : (applyOp ⟨st, le, hw⟩ (Op.runTestOp d ps env)).2.1 = ⟨st, le, hw⟩ := by
        simp only [applyOp, runTest]
        repeat' split <;> try rfl
      rw [hs]
  | calibrateOp resp =>
      by_cases hst : st = .IDLE
      · subst hst
        by_cases hhw : hw = some true
        · subst hhw
          by_cases hc : strContains resp "CAL_OK" = true <;>
            simp [applyOp, calibrate, setStatus, hc] at h ⊢
        · simp [applyOp, calibrate, setStatus, hhw] at h
      · simp [applyOp, calibrate, hst] at h

/-- C1: starting from any controller state (so in particular along every
sequence of start/stop/pause/resume calls from the initial `Idle`
status), each of the four plain transitions succeeds exactly when the
spec table of section 4.3 allows it, moving the status to the table's
target; every other attempt returns `false`, leaves the status
unchanged, and records the operation's human-readable reason,
retrievable via `getLastError`.  The embedded operations are total
functions, so no attempt throws or aborts. -/
theorem transitions_follow_spec_table (s : ControllerState) (op : TransOp) :
    match specTransitionTable s.status op with
    | some target =>
        (applyTrans s op).1 = true ∧ getStatus (applyTrans s op).2.1 = target
    | none =>
        (applyTrans s op).1 = false ∧ getStatus (applyTrans s op).2.1 = s.status ∧
        getLastError (applyTrans s op).2.1 = transFailReason op ∧
        transFailReason op ≠ "" := by
  rcases s with ⟨st, le, hw⟩
  cases op <;> cases st <;>
    simp [specTransitionTable, applyTrans, transFailReason, start, stop, pause, resume,
      setStatus, getStatus, getLastError]

/-- C2: for every configuration and every prior state, `initialize`
leaves the status at `Idle` whether or not the transport connection
succeeded; when the connect fails it returns `false` and afterwards
`getLastError` is non-empty while `getStatus` still reports `Idle`. -/
theorem initialize_leaves_idle (s : ControllerState) (config : EquipmentConfig)
    (connectOk : Bool) :
    getStatus (initializeEquipment s config connectOk).2.1 = .IDLE ∧
    ((initializeEquipment s config false).1 = false ∧
     getLastError (initializeEquipment s config false).2.1 ≠ "" ∧
     getStatus (initializeEquipment s config false).2.1 = .IDLE) := by
  refine ⟨?_, ?_, ?_, ?_⟩
  · cases connectOk <;>
      simp [initializeEquipment, createHardwareInterface, setStatus, getStatus]
  · simp [initializeEquipment, createHardwareInterface, setStatus]
  · simp [initializeEquipment, createHardwareInterface, setStatus, getLastError]
    exact append_ne_empty _ _ (by decide)
  · simp [initializeEquipment, createHardwareInterface, setStatus, getStatus]

/-- C3: for every device identifier, parameter list and environment,
`runTest` called while the status is not `Running` returns a
`TestResult` with `passed = false` and the explanatory note, leaves the
state untouched, and performs no transport interaction (its event trace
is empty, so no send or receive is issued). -/
theorem runTest_requires_running (s : ControllerState) (device_id : String)
    (params : List String) (env : RunTestEnv) (h : s.status ≠ .RUNNING) :
    (runTest s device_id params env).1.passed = false ∧
    (runTest s device_id params env).1.notes = "Equipment not in running state" ∧
    (runTest s device_id params env).2.1 = s ∧
    (runTest s device_id params env).2.2 = [] := by
  simp only [runTest]
  rw [if_pos h]
  exact ⟨rfl, rfl, rfl, rfl⟩

/-- Witness for C3 at the freshly constructed (Idle) controller. -/
theorem runTest_requires_running_witness :
    initialState.status ≠ .RUNNING ∧
    ((runTest initialState "D1" [] ⟨"ts", true, "resp"⟩).1.passed = false ∧
     (runTest initialState "D1" [] ⟨"ts", true, "resp"⟩).1.notes =
       "Equipment not in running state" ∧
     (runTest initialState "D1" [] ⟨"ts", true, "resp"⟩).2.1 = initialState ∧
     (runTest initialState "D1" [] ⟨"ts", true, "resp"⟩).2.2 = []) :=
  ⟨by decide, runTest_requires_running initialState "D1" [] ⟨"ts", true, "resp"⟩ (by decide)⟩

/-- C4: `calibrate` succeeds only from `Idle`.  Called in any other
status it returns `false` without changing the status (recording a
reason).  Called in `Idle` it first commits `Maintenance` (notifying),
performs the settling delay, and — with a connected transport — sends
`CALIBRATE` and waits up to 10000 ms; a response containing `CAL_OK`
ends in status `Idle` with `true`, and every other outcome (wrong
response, or a disconnected/absent transport, in which case no send
happens) ends in status `Error` with `false`. -/
theorem calibrate_characterization (s : ControllerState) (resp : String) :
    if s.status = .IDLE then
      ((calibrate s resp).2.2 =
        Event.notify .MAINTENANCE "Calibration in progress" :: Event.sleep 2000 ::
          ((if s.hardware = some true then
              [Event.send "CALIBRATE", Event.receive 10000] else []) ++
           [if s.hardware = some true ∧ strContains resp "CAL_OK" = true then
              Event.notify .IDLE "Calibration completed successfully"
            else Event.notify .ERROR "Calibration failed"])) ∧
      (if s.hardware = some true ∧ strContains resp "CAL_OK" = true then
         (calibrate s resp).1 = true ∧ getStatus (calibrate s resp).2.1 = .IDLE
       else (calibrate s resp).1 = false ∧ getStatus (calibrate s resp).2.1 = .ERROR)
    else
      (calibrate s resp).1 = false ∧
      (calibrate s resp).2.1 =
        { s with lastError := "Equipment must be idle for calibration" } ∧
      getStatus (calibrate s resp).2.1 = s.status ∧
      getLastError (calibrate s resp).2.1 = "Equipment must be idle for calibration" ∧
      (calibrate s resp).2.2 = [] := by
  rcases s with ⟨st, le, hw⟩
  by_cases hst : st = .IDLE
  · subst hst
    by_cases hhw : hw = some true
    · subst hhw
      by_cases hc : strContains resp "CAL_OK" = true <;>
        simp [calibrate, setStatus, getStatus, hc]
    · simp [calibrate, setStatus, getStatus, hhw]
  · simp [calibrate, setStatus, getStatus, getLastError, hst]

/-- C5: in a running, connected exchange, every inbound response that
fails the parse (fewer than 4 colon tokens, head token not `RESULT`, or
a value token `std::stod` rejects) yields `passed = false` with one of
the two parse-failure notes, which is non-empty and distinct from the
timeout note `No response from device`; the `std::stod` throw is caught
inside `runTest`, so no fault propagates (the embedding is total). -/
theorem runTest_malformed_response (s : ControllerState) (device_id : String)
    (params : List String) (env : RunTestEnv)
    (h1 : s.status = .RUNNING) (h2 : s.hardware = some true)
    (h3 : env.sendOk = true) (h4 : env.response ≠ "")
    (h5 : wellFormedResult env.response = false) :
    (runTest s device_id params env).1.passed = false ∧
    ((runTest s device_id params env).1.notes =
       "Invalid response format: " ++ env.response ∨
     (runTest s device_id params env).1.notes = "Test execution error: stod") ∧
    (runTest s device_id params env).1.notes ≠ "" ∧
    (runTest s device_id params env).1.notes ≠ "No response from device" := by
  have hs : ¬ (s.status ≠ EquipmentStatus.RUNNING) := by simp [h1]
  have hh : ¬ (s.hardware ≠ some true) := by simp [h2]
  by_cases hg : 4 ≤ (cppSplit env.response ':').length ∧
      (cppSplit env.response ':').getD 0 "" = "RESULT"
  · have hns : stod ((cppSplit env.response ':').getD 1 "") = none := by
      cases hstod : stod ((cppSplit env.response ':').getD 1 "") with
      | none => rfl
      | some v =>
        exfalso
        have h5u : (decide (4 ≤ (cppSplit env.response ':').length) &&
            decide ((cppSplit env.response ':').getD 0 "" = "RESULT") &&
            (stod ((cppSplit env.response ':').getD 1 "")).isSome) = false := h5
        rw [hstod] at h5u
        simp [hg.1, ← List.getD_eq_getElem?_getD] at h5u
        exact h5u hg.2
    simp only [runTest]
    rw [if_neg hs, if_neg hh]
    rw [if_neg (by simp [h3]), if_neg h4, if_pos hg, hns]
    simp
  · simp only [runTest]
    rw [if_neg hs, if_neg hh]
    rw [if_neg (by simp [h3]), if_neg h4, if_neg hg]
    refine ⟨rfl, Or.inl rfl, ?_, ?_⟩
    · exact append_ne_empty _ _ (by decide)
    · intro hc
      have hlen := congrArg String.length hc
      rw [String.length_append] at hlen
      have : ("Invalid response format: ").length = 25 := by decide
      have h2len : ("No response from device").length = 23 := by decide
      omega

/-- Witness for C5 at the spec's own example `RESULT:abc:V` (wrong token
count; and `abc` is non-numeric). -/
theorem runTest_malformed_response_witness :
    (runningState.status = .RUNNING ∧ runningState.hardware = some true ∧
     malformedEnv.sendOk = true ∧ malformedEnv.response ≠ "" ∧
     wellFormedResult malformedEnv.response = false) ∧
    ((runTest runningState "D1" [] malformedEnv).1.passed = false ∧
     ((runTest runningState "D1" [] malformedEnv).1.notes =
        "Invalid response format: " ++ malformedEnv.response ∨
      (runTest runningState "D1" [] malformedEnv).1.notes = "Test execution error: stod") ∧
     (runTest runningState "D1" [] malformedEnv).1.notes ≠ "" ∧
     (runTest runningState "D1" [] malformedEnv).1.notes ≠ "No response from device") :=
  ⟨⟨by decide, by decide, by decide, by decide, by decide⟩,
   runTest_malformed_response runningState "D1" [] malformedEnv
     (by decide) (by decide) (by decide) (by decide) (by decide)⟩

/-- C6: in status `Running` with a connected transport, `runTest` for
device `D1` with parameters `voltage, 5.0` sends exactly the command
`TEST:D1:voltage:5.0`, and decoding the well-formed response
`RESULT:4.98:V:PASS` yields `passed = true`,
`measurement_value = 4.98`, and `units = "V"`. -/
theorem runTest_roundtrip :
    (runTest runningState "D1" ["voltage", "5.0"] roundtripEnv).1.passed = true ∧
    (runTest runningState "D1" ["voltage", "5.0"] roundtripEnv).1.measurement_value = 4.98 ∧
    (runTest runningState "D1" ["voltage", "5.0"] roundtripEnv).1.units = "V" ∧
    (runTest runningState "D1" ["voltage", "5.0"] roundtripEnv).2.2 =
      [Event.send "TEST:D1:voltage:5.0", Event.receive 5000] := by
  refine ⟨by decide, ?_, by decide, by decide⟩
  have hsplit : cppSplit "RESULT:4.98:V:PASS" ':' = ["RESULT", "4.98", "V", "PASS"] := by
    decide
  have hstod : stod "4.98" = some (4.98 : ℚ) := by
    have h1 : parseNatDigits ['4', '.', '9', '8'] 0 0 = (4, 1, ['.', '9', '8']) := by decide
    have h2 : parseNatDigits ['9', '8'] 0 0 = (98, 2, []) := by decide
    simp [stod, h1, h2]
    norm_num
  simp [runTest, runningState, roundtripEnv, hsplit, hstod]

/-- Counterexample to C7: a failed transition attempt (`pause` from the
initial `Idle` state) does not invoke the status callback at all (its
event trace contains no notification), and neither does the successful
`stop` of an already-idle controller — so not every attempt notifies. -/
theorem failed_attempt_emits_no_notification :
    (pause initialState).1 = false ∧
    notificationsOf (pause initialState).2.2 = [] ∧
    (stop initialState).1 = true ∧
    notificationsOf (stop initialState).2.2 = [] := by
  decide

/-- C7 (amended): exactly the committed status changes — successful
`start`, `pause`, `resume`, `stop` from a non-Idle status, and the
transitions inside `calibrate` — invoke the registered status callback,
synchronously before the operation returns, with the committed
`(status, message)` pairs in exactly the commit order, none coalesced or
dropped; failed attempts and `stop` while already `Idle` emit no
notification. -/
theorem notifications_match_committed_transitions (s : ControllerState) (resp : String) :
    (notificationsOf (start s).2.2 =
      if s.status = .IDLE ∨ s.status = .PAUSED
      then [(.RUNNING, "Equipment started")] else []) ∧
    (notificationsOf (stop s).2.2 =
      if s.status = .IDLE then [] else [(.IDLE, "Equipment stopped")]) ∧
    (notificationsOf (pause s).2.2 =
      if s.status = .RUNNING then [(.PAUSED, "Equipment paused")] else []) ∧
    (notificationsOf (resume s).2.2 =
      if s.status = .PAUSED then [(.RUNNING, "Equipment resumed")] else []) ∧
    (notificationsOf (calibrate s resp).2.2 =
      if s.status = .IDLE then
        (EquipmentStatus.MAINTENANCE, "Calibration in progress") ::
          (if s.hardware = some true ∧ strContains resp "CAL_OK" = true
           then [(.IDLE, "Calibration completed successfully")]
           else [(.ERROR, "Calibration failed")])
      else []) := by
  rcases s with ⟨st, le, hw⟩
  refine ⟨?_, ?_, ?_, ?_, ?_⟩
  · cases st <;> simp [start, setStatus, notificationsOf]
  · cases st <;> simp [stop, setStatus, notificationsOf]
  · cases st <;> simp [pause, setStatus, notificationsOf]
  · cases st <;> simp [resume, setStatus, notificationsOf]
  · by_cases hst : st = .IDLE
    · subst hst
      by_cases hhw : hw = some true
      · subst hhw
        by_cases hc : strContains resp "CAL_OK" = true <;>
          simp [calibrate, setStatus, notificationsOf, hc]
      · simp [calibrate, setStatus, notificationsOf, hhw]
    · simp [calibrate, setStatus, notificationsOf, hst]

/-- Counterexample to C8: two distinct `runTest` calls (different device
identifiers and parameter lists) performed within the same wall-clock
second receive the same time-derived `test_id`, because
`Impl::getCurrentTimestamp` has second resolution. -/
theorem runTest_id_collision_same_second :
    (runTest runningState "D1" [] malformedEnv).1.test_id =
      (runTest runningState "D2" ["p"] malformedEnv).1.test_id ∧
    ("D1", ([] : List String)) ≠ ("D2", ["p"]) := by
  decide

/-- C8 (amended): `test_id` is time-derived (`TEST_` followed by the
second-resolution timestamp), so two `runTest` calls whose timestamps
differ — i.e. calls in different seconds — return distinct `test_id`s,
and `device_id` always equals the caller-supplied identifier;
uniqueness per invocation holds only at second granularity. -/
theorem runTest_id_distinct_timestamps (s1 s2 : ControllerState) (d1 d2 : String)
    (ps1 ps2 : List String) (env1 env2 : RunTestEnv)
    (h : env1.timestamp ≠ env2.timestamp) :
    (runTest s1 d1 ps1 env1).1.test_id ≠ (runTest s2 d2 ps2 env2).1.test_id ∧
    (runTest s1 d1 ps1 env1).1.device_id = d1 := by
  constructor
  · rw [runTest_test_id, runTest_test_id]
    intro hc
    exact h (append_left_inj _ _ _ hc)
  · exact runTest_device_id s1 d1 ps1 env1

/-- Witness for the amended C8 at two timestamps one second apart. -/
theorem runTest_id_distinct_timestamps_witness :
    (⟨"2024-06-01 10:00:00", true, ""⟩ : RunTestEnv).timestamp ≠
      (⟨"2024-06-01 10:00:01", true, ""⟩ : RunTestEnv).timestamp ∧
    ((runTest initialState "D1" [] ⟨"2024-06-01 10:00:00", true, ""⟩).1.test_id ≠
       (runTest initialState "D2" [] ⟨"2024-06-01 10:00:01", true, ""⟩).1.test_id ∧
     (runTest initialState "D1" [] ⟨"2024-06-01 10:00:00", true, ""⟩).1.device_id = "D1") :=
  ⟨by decide,
   runTest_id_distinct_timestamps initialState initialState "D1" "D2" [] []
     ⟨"2024-06-01 10:00:00", true, ""⟩ ⟨"2024-06-01 10:00:01", true, ""⟩ (by decide)⟩

/-- C9: no successful public operation modifies the last-error string —
across any sequence of calls in which every call reports success, the
value returned by `getLastError` at the end is exactly the value it had
at the start (a possibly stale failure message, never cleared). -/
theorem lastError_persists_across_successes (s : ControllerState) (ops : List Op)
    (h : allSucceed s ops = true) :
    getLastError (runOps s ops) = getLastError s := by
  induction ops generalizing s with
  | nil => rfl
  | cons op rest ih =>
      rw [allSucceed, Bool.and_eq_true] at h
      have h1 := applyOp_success_preserves_lastError s op h.1
      calc getLastError (runOps (applyOp s op).2.1 rest)
          = getLastError (applyOp s op).2.1 := ih _ h.2
        _ = getLastError s := h1

/-- Witness for C9 along the all-successful sequence
start, pause, resume, stop from the initial state. -/
theorem lastError_persists_across_successes_witness :
    allSucceed initialState [Op.startOp, Op.pauseOp, Op.resumeOp, Op.stopOp] = true ∧
    getLastError (runOps initialState [Op.startOp, Op.pauseOp, Op.resumeOp, Op.stopOp]) =
      getLastError initialState :=
  ⟨by decide,
   lastError_persists_across_successes initialState
     [Op.startOp, Op.pauseOp, Op.resumeOp, Op.stopOp] (by decide)⟩

/-- C10: `getHealthMetrics` is deterministic and independent of the
controller state: in every status, connected or not, it returns exactly
the five simulated pairs in their fixed order, so the key set is stable
across calls; its definition performs no transport interaction (it
returns no events and reads neither `status` nor `hardware`). -/
theorem getHealthMetrics_constant (s : ControllerState) :
    getHealthMetrics s =
      [("Temperature", 23.5),
       ("Vibration", 0.02),
       ("Power_Consumption", 125.3),
       ("Uptime_Hours", 1234.5),
       ("Error_Rate", 0.001)] ∧
    getHealthMetrics s = getHealthMetrics initialState ∧
    (getHealthMetrics s).map Prod.fst =
      ["Temperature", "Vibration", "Power_Consumption", "Uptime_Hours", "Error_Rate"] :=
  ⟨rfl, rfl, rfl⟩

end MechatronicTest
